import Mathlib

/-!
Shallow embedding of the calculation core of the LMS_hack learning-management
backend: the badge tier resolver, the completion calculator, the
lesson-progress aggregator, the yearly badge awarder and the session reminder
job, together with proofs about them.

Modelling conventions:
* Python floats are modelled as rationals.
* Surrogate UUID primary keys are modelled as natural numbers, and are kept
  only on rows that other code looks up by id (trainings, sessions,
  enrollments, modules, lessons); rows looked up only by business keys
  (completions, badges, notifications, lesson progress, attendance) omit them.
* `datetime` values are modelled by `Instant` (year plus a tick within the
  year); calendar dates are plain naturals where only equality matters.
* A database session is a `Store`; an endpoint that raises an HTTPException
  returns `Except.error`, and since nothing was committed the caller's store
  is unchanged.
* f-string interpolation in error details and notification texts is
  abstracted to the constant part of the message.
-/

deriving instance DecidableEq for Except

namespace LMS

/-- Enrollment status enumeration (src/models/enrollment.py). -/
inductive EnrollmentStatus
  | ENROLLED
  | IN_PROGRESS
  | COMPLETED
  | DROPPED
  | FAILED
deriving DecidableEq, Repr

/-- Attendance status enumeration (src/models/attendance.py). -/
inductive AttendanceStatus
  | PRESENT
  | ABSENT
  | PARTIAL
deriving DecidableEq, Repr

/-- Badge type enumeration (src/models/badge.py). -/
inductive BadgeType
  | BRONZE
  | SILVER
  | GOLD
  | PLATINUM
deriving DecidableEq, Repr

/-- Notification type enumeration (src/models/notification.py),
restricted to the two types the jobs in scope emit. -/
inductive NotificationType
  | SESSION_REMINDER
  | BADGE_EARNED
deriving DecidableEq, Repr

/-- A point in time: the calendar year together with a tick inside the year
(0 is midnight of January 1st).  This is enough to model the datetime
comparisons the code performs (range filters by year boundaries and
extraction of the year). -/
structure Instant where
  year : ℤ
  tick : ℕ
deriving DecidableEq, Repr

/-- `datetime` order: `a ≤ b`. -/
def Instant.le (a b : Instant) : Bool :=
  decide (a.year < b.year) || (decide (a.year = b.year) && decide (a.tick ≤ b.tick))

/-- `datetime` order: `a < b`. -/
def Instant.lt (a b : Instant) : Bool :=
  decide (a.year < b.year) || (decide (a.year = b.year) && decide (a.tick < b.tick))

/-- `datetime(y, 1, 1)`: midnight of January 1st of year `y`. -/
def jan1 (y : ℤ) : Instant := ⟨y, 0⟩

/-- Training row (src/models/training.py); fields beyond the ones the core
reads are omitted. -/
structure Training where
  id : ℕ
  title : String
deriving DecidableEq, Repr

/-- TrainingSession row (src/models/training.py). -/
structure TrainingSession where
  id : ℕ
  training_id : ℕ
  session_date : ℕ
  start_time : String
deriving DecidableEq, Repr

/-- Enrollment row (src/models/enrollment.py). -/
structure Enrollment where
  id : ℕ
  user_id : ℕ
  training_id : ℕ
  status : EnrollmentStatus
  completed_at : Option Instant
  completion_percentage : ℚ
deriving DecidableEq, Repr

/-- Attendance row (src/models/attendance.py). -/
structure Attendance where
  user_id : ℕ
  session_id : ℕ
  enrollment_id : ℕ
  attendance_date : ℕ
  status : AttendanceStatus
  hours_attended : ℚ
deriving DecidableEq, Repr

/-- TrainingCompletion row (src/models/completion.py). -/
structure TrainingCompletion where
  user_id : ℕ
  training_id : ℕ
  enrollment_id : ℕ
  completed_at : Instant
  learning_hours : ℚ
  attendance_percentage : ℚ
  assessment_score : Option ℚ
  passed : Bool
  certificate_issued : Bool
deriving DecidableEq, Repr

/-- Badge row (src/models/badge.py). -/
structure Badge where
  user_id : ℕ
  badge_type : BadgeType
  year_earned : ℤ
  hours_completed : ℚ
  trainings_completed : ℕ
deriving DecidableEq, Repr

/-- Module row (src/models/content.py). -/
structure Module where
  id : ℕ
  training_id : ℕ
deriving DecidableEq, Repr

/-- Lesson row (src/models/content.py). -/
structure Lesson where
  id : ℕ
  module_id : ℕ
deriving DecidableEq, Repr

/-- LessonProgress row (src/models/progress.py). -/
structure LessonProgress where
  user_id : ℕ
  lesson_id : ℕ
  is_completed : Bool
  completed_at : Option Instant
  quiz_score : ℚ
deriving DecidableEq, Repr

/-- Notification row (src/models/notification.py), restricted to the fields
the jobs in scope write. -/
structure Notification where
  user_id : ℕ
  notification_type : NotificationType
  title : String
  message : String
deriving DecidableEq, Repr

/-- The relational store the embedded operations read and write. -/
structure Store where
  trainings : List Training
  sessions : List TrainingSession
  enrollments : List Enrollment
  attendances : List Attendance
  completions : List TrainingCompletion
  badges : List Badge
  modules : List Module
  lessons : List Lesson
  progressRows : List LessonProgress
  notifications : List Notification
deriving DecidableEq, Repr

/-- Errors raised through HTTPException by the routes in scope. -/
inductive ApiError
  | notFound (detail : String)
  | badRequest (detail : String)
deriving DecidableEq, Repr

/-- `determine_badge_type` (src/api/routes/badges.py lines 19-29). -/
def determine_badge_type (hours : ℚ) : Option BadgeType :=
  if hours ≥ 80 then some BadgeType.PLATINUM
  else if hours ≥ 60 then some BadgeType.GOLD
  else if hours ≥ 40 then some BadgeType.SILVER
  else if hours ≥ 20 then some BadgeType.BRONZE
  else none

/-- The inline badge-tier ladder of the yearly batch job
(src/core/scheduler.py lines 157-166). -/
def badge_tier_for_hours (total_hours : ℚ) : Option BadgeType :=
  if total_hours ≥ 80 then some BadgeType.PLATINUM
  else if total_hours ≥ 60 then some BadgeType.GOLD
  else if total_hours ≥ 40 then some BadgeType.SILVER
  else if total_hours ≥ 20 then some BadgeType.BRONZE
  else none

/-- Rank of a tier, for stating monotonicity: none < BRONZE < SILVER < GOLD
< PLATINUM. -/
def tier_rank : Option BadgeType → ℕ
  | none => 0
  | some BadgeType.BRONZE => 1
  | some BadgeType.SILVER => 2
  | some BadgeType.GOLD => 3
  | some BadgeType.PLATINUM => 4

/-- Update the first element satisfying `p` (the row an ORM query returned
and the handler then mutated); all other rows are untouched. -/
def update_first {α : Type} (p : α → Bool) (f : α → α) : List α → List α
  | [] => []
  | x :: xs => if p x then f x :: xs else x :: update_first p f xs

/-- Deduplicate keeping the first occurrence of each key, in order: the
iteration order of a Python dict built by insertion. -/
def dedupFirst (l : List ℕ) : List ℕ :=
  l.foldl (fun acc u => if u ∈ acc then acc else acc ++ [u]) []

/-- The `.value` string of a badge type (src/models/badge.py). -/
def BadgeType.toName : BadgeType → String
  | BadgeType.BRONZE => "BRONZE"
  | BadgeType.SILVER => "SILVER"
  | BadgeType.GOLD => "GOLD"
  | BadgeType.PLATINUM => "PLATINUM"

/-- `notify_badge_earned` (src/core/notifications.py): the notification row
added for an earned badge; interpolated hours and year are abstracted away. -/
def badge_notification (uid : ℕ) (bt : BadgeType) : Notification :=
  { user_id := uid
    notification_type := NotificationType.BADGE_EARNED
    title := bt.toName ++ " Badge Earned!"
    message := "Congratulations! You have earned a " ++ bt.toName ++ " badge" }

/-- `notify_session_reminder` (src/core/notifications.py): the notification
row added for an upcoming session; the interpolated date and time are
abstracted away. -/
def reminder_notification (uid : ℕ) (training_title : String) : Notification :=
  { user_id := uid
    notification_type := NotificationType.SESSION_REMINDER
    title := "Upcoming Training Session"
    message := "Reminder: " ++ training_title ++ " is scheduled" }

/-- `mark_attendance` (src/api/routes/attendance.py lines 19-77): verifies
the session and the enrollment, rejects a duplicate (session, enrollment,
date) triple, then inserts the attendance row. -/
def mark_attendance (user_id session_id enrollment_id : ℕ) (attendance_date : ℕ)
    (status_value : AttendanceStatus) (hours_attended : ℚ) (s : Store) :
    Except ApiError Store :=
  match s.sessions.find? (fun ts => decide (ts.id = session_id)) with
  | none => Except.error (ApiError.notFound "Training session not found")
  | some _ =>
    match s.enrollments.find? (fun e => decide (e.id = enrollment_id)) with
    | none => Except.error (ApiError.notFound "Enrollment not found")
    | some _ =>
      match s.attendances.find? (fun a =>
          decide (a.session_id = session_id ∧ a.enrollment_id = enrollment_id ∧
            a.attendance_date = attendance_date)) with
      | some _ => Except.error (ApiError.badRequest "Attendance already marked for this session")
      | none =>
        Except.ok { s with attendances := s.attendances ++
          [{ user_id := user_id, session_id := session_id, enrollment_id := enrollment_id,
             attendance_date := attendance_date, status := status_value,
             hours_attended := hours_attended }] }

/-- All sessions of a training (the `all_sessions` query in
src/api/routes/completions.py lines 63-67). -/
def training_sessions_of (s : Store) (tid : ℕ) : List TrainingSession :=
  s.sessions.filter (fun ts => decide (ts.training_id = tid))

/-- All attendance records of an enrollment (the `attendance_records` query
in src/api/routes/completions.py lines 78-82). -/
def enrollment_attendance (s : Store) (eid : ℕ) : List Attendance :=
  s.attendances.filter (fun a => decide (a.enrollment_id = eid))

/-- `attended_sessions` (src/api/routes/completions.py lines 85-87): the
number of this enrollment's attendance records with status PRESENT. -/
def presentCount (s : Store) (eid : ℕ) : ℕ :=
  ((enrollment_attendance s eid).filter
    (fun a => decide (a.status = AttendanceStatus.PRESENT))).length

/-- `learning_hours` (src/api/routes/completions.py line 93): the sum of
`hours_attended` over all of the enrollment's attendance records. -/
def enrollmentHours (s : Store) (eid : ℕ) : ℚ :=
  ((enrollment_attendance s eid).map (fun a => a.hours_attended)).sum

/-- The TrainingCompletion row the success path of
`calculate_and_create_completion` builds (src/api/routes/completions.py
lines 75-106): `attended_sessions / total_sessions * 100` guarded by
`total_sessions > 0`, and the sum of hours over all attendance rows. -/
def computed_completion (enrollment_id : ℕ) (assessment_score : Option ℚ)
    (passed : Bool) (now : Instant) (s : Store) (enrollment : Enrollment) :
    TrainingCompletion :=
  let total_sessions := (training_sessions_of s enrollment.training_id).length
  let attended_sessions := presentCount s enrollment_id
  { user_id := enrollment.user_id
    training_id := enrollment.training_id
    enrollment_id := enrollment_id
    completed_at := now
    learning_hours := enrollmentHours s enrollment_id
    attendance_percentage :=
      if total_sessions > 0 then
        (attended_sessions : ℚ) / (total_sessions : ℚ) * 100
      else 0
    assessment_score := assessment_score
    passed := passed
    certificate_issued := false }

/-- The enrollment mutation of the success path
(src/api/routes/completions.py lines 109-112). -/
def completed_enrollment (now : Instant) (e : Enrollment) : Enrollment :=
  { e with
    status := EnrollmentStatus.COMPLETED
    completed_at := some now
    completion_percentage := 100 }

/-- `calculate_and_create_completion` (src/api/routes/completions.py lines
20-128): validates, computes attendance percentage and learning hours,
inserts the TrainingCompletion and flips the enrollment to COMPLETED. -/
def calculate_and_create_completion (enrollment_id : ℕ) (assessment_score : Option ℚ)
    (passed : Bool) (now : Instant) (s : Store) :
    Except ApiError (Store × TrainingCompletion) :=
  match s.enrollments.find? (fun e => decide (e.id = enrollment_id)) with
  | none => Except.error (ApiError.notFound "Enrollment not found")
  | some enrollment =>
    match s.completions.find? (fun c => decide (c.enrollment_id = enrollment_id)) with
    | some _ => Except.error
      (ApiError.badRequest "Completion record already exists for this enrollment")
    | none =>
      match s.trainings.find? (fun t => decide (t.id = enrollment.training_id)) with
      | none => Except.error (ApiError.notFound "Training not found")
      | some _ =>
        if training_sessions_of s enrollment.training_id = [] then
          Except.error (ApiError.badRequest "No sessions found for this training")
        else
          let completion := computed_completion enrollment_id assessment_score
            passed now s enrollment
          Except.ok
            ({ s with
                completions := s.completions ++ [completion]
                enrollments := update_first (fun e => decide (e.id = enrollment_id))
                  (completed_enrollment now) s.enrollments },
             completion)

/-- `round(x, 2)` on the computed percentage
(src/api/routes/progress.py line 90), modelled with rounding to the nearest
multiple of 1/100. -/
def round2 (x : ℚ) : ℚ := (round (x * 100) : ℤ) / 100

/-- The upsert of the LessonProgress row (src/api/routes/progress.py lines
31-53): if a row for (user, lesson) exists, mark it completed and keep the
maximum quiz score; otherwise insert a fresh completed row. -/
def upsert_progress (user_id lesson_id : ℕ) (quiz_score : ℚ) (now : Instant)
    (s : Store) : Store :=
  match s.progressRows.find?
      (fun p => decide (p.user_id = user_id ∧ p.lesson_id = lesson_id)) with
  | some _ =>
    { s with progressRows :=
        (update_first
          (fun p => decide (p.user_id = user_id ∧ p.lesson_id = lesson_id))
          (fun p => { p with
            is_completed := true
            completed_at := some now
            quiz_score := max p.quiz_score quiz_score }) s.progressRows) }
  | none =>
    { s with progressRows := s.progressRows ++
        [{ user_id := user_id, lesson_id := lesson_id, is_completed := true,
           completed_at := some now, quiz_score := quiz_score }] }

/-- The id list of all lessons of a training, joined through modules
(src/api/routes/progress.py line 74). -/
def training_lesson_ids (s : Store) (tid : ℕ) : List ℕ :=
  (s.lessons.filter (fun l =>
    s.modules.any (fun m => decide (m.id = l.module_id ∧ m.training_id = tid)))).map
    (fun l => l.id)

/-- `completed_count` (src/api/routes/progress.py lines 80-86): the number
of the user's completed LessonProgress rows among the training's lessons. -/
def completed_lesson_count (s : Store) (user_id tid : ℕ) : ℕ :=
  (s.progressRows.filter (fun p =>
    decide (p.user_id = user_id) &&
    (training_lesson_ids s tid).contains p.lesson_id &&
    p.is_completed)).length

/-- The recomputed completion percentage of the roll-up
(src/api/routes/progress.py line 89). -/
def rollup_percentage (s : Store) (user_id tid : ℕ) : ℚ :=
  ((completed_lesson_count s user_id tid : ℚ) /
    ((training_lesson_ids s tid).length : ℚ)) * 100

/-- The enrollment update of the roll-up (src/api/routes/progress.py lines
88-99): when the training has lessons, store the rounded percentage and
transition the status; when it has none, leave the row untouched. -/
def rollup_enrollment (now : Instant) (s : Store) (user_id tid : ℕ)
    (e : Enrollment) : Enrollment :=
  if 0 < (training_lesson_ids s tid).length then
    let percentage := rollup_percentage s user_id tid
    let base := { e with completion_percentage := round2 percentage }
    if percentage ≥ 100 then
      { base with status := EnrollmentStatus.COMPLETED, completed_at := some now }
    else if percentage > 0 ∧ e.status = EnrollmentStatus.ENROLLED then
      { base with status := EnrollmentStatus.IN_PROGRESS }
    else base
  else e

/-- `complete_lesson` (src/api/routes/progress.py lines 19-101): upserts the
LessonProgress row, then — when the lesson's training has an enrollment for
this user — recomputes the completion percentage and transitions the
enrollment status. -/
def complete_lesson (user_id lesson_id : ℕ) (quiz_score : ℚ) (now : Instant)
    (s : Store) : Except ApiError Store :=
  match s.lessons.find? (fun l => decide (l.id = lesson_id)) with
  | none => Except.error (ApiError.notFound "Lesson not found")
  | some lesson =>
    let s1 := upsert_progress user_id lesson_id quiz_score now s
    match (s1.modules.find? (fun m => decide (m.id = lesson.module_id))).map
        Module.training_id with
    | none => Except.ok s1
    | some training_id =>
      match s1.enrollments.find?
          (fun e => decide (e.user_id = user_id ∧ e.training_id = training_id)) with
      | none => Except.ok s1
      | some _ =>
        Except.ok { s1 with enrollments :=
          (update_first
            (fun e => decide (e.user_id = user_id ∧ e.training_id = training_id))
            (rollup_enrollment now s1 user_id training_id) s1.enrollments) }

/-- The completions of a user whose completion year equals `year` (the
`func.extract` query of src/api/routes/badges.py lines 61-64). -/
def yearCompletions (s : Store) (user_id : ℕ) (year : ℤ) : List TrainingCompletion :=
  s.completions.filter (fun c =>
    decide (c.user_id = user_id ∧ c.completed_at.year = year))

/-- `calculate_and_award_badge` (src/api/routes/badges.py lines 32-118):
rejects an existing badge for the year, an empty completion year and an
insufficient hour total; otherwise inserts the badge and its notification. -/
def calculate_and_award_badge (user_id : ℕ) (year : ℤ) (s : Store) :
    Except ApiError (Store × Badge) :=
  match s.badges.find?
      (fun b => decide (b.user_id = user_id ∧ b.year_earned = year)) with
  | some _ => Except.error (ApiError.badRequest "Badge already awarded for year")
  | none =>
    let completions := yearCompletions s user_id year
    if completions = [] then
      Except.error (ApiError.badRequest "No completed trainings found for year")
    else
      let total_hours := (completions.map (fun c => c.learning_hours)).sum
      let total_trainings := completions.length
      match determine_badge_type total_hours with
      | none => Except.error (ApiError.badRequest
          "Insufficient learning hours. Minimum 20 hours required for BRONZE badge.")
      | some badge_type =>
        let badge : Badge :=
          { user_id := user_id
            badge_type := badge_type
            year_earned := year
            hours_completed := total_hours
            trainings_completed := total_trainings }
        Except.ok
          ({ s with
              badges := s.badges ++ [badge]
              notifications := s.notifications ++ [badge_notification user_id badge_type] },
           badge)

/-- The completions whose `completed_at` lies in
[Jan 1 of `py`, Jan 1 of `py + 1`) — the range filter of the yearly job
(src/core/scheduler.py lines 120-123). -/
def rangeCompletions (s : Store) (py : ℤ) : List TrainingCompletion :=
  s.completions.filter (fun c =>
    Instant.le (jan1 py) c.completed_at && Instant.lt c.completed_at (jan1 (py + 1)))

/-- The users of the yearly job's grouping, in dict insertion order
(src/core/scheduler.py lines 127-136). -/
def runUsers (completions : List TrainingCompletion) : List ℕ :=
  dedupFirst (completions.map (fun c => c.user_id))

/-- `user_hours[u]` of the yearly job (src/core/scheduler.py line 135). -/
def runHours (completions : List TrainingCompletion) (u : ℕ) : ℚ :=
  ((completions.filter (fun c => decide (c.user_id = u))).map
    (fun c => c.learning_hours)).sum

/-- `user_trainings[u]` of the yearly job (src/core/scheduler.py line 136). -/
def runTrainings (completions : List TrainingCompletion) (u : ℕ) : ℕ :=
  (completions.filter (fun c => decide (c.user_id = u))).length

/-- The per-user awarding loop of the yearly job (src/core/scheduler.py
lines 146-191).  `failNotify` lists the users whose notification raises; the
loop has no per-user exception handler, so a raise aborts it — modelled by
`none` — and the surrounding session is rolled back without a commit. -/
def processUsers (py : ℤ) (failNotify : List ℕ) (hoursOf : ℕ → ℚ)
    (trainingsOf : ℕ → ℕ) : List ℕ → Store → Option Store
  | [], s => some s
  | u :: rest, s =>
    match s.badges.find? (fun b => decide (b.user_id = u ∧ b.year_earned = py)) with
    | some _ => processUsers py failNotify hoursOf trainingsOf rest s
    | none =>
      match badge_tier_for_hours (hoursOf u) with
      | none => processUsers py failNotify hoursOf trainingsOf rest s
      | some bt =>
        if u ∈ failNotify then none
        else
          processUsers py failNotify hoursOf trainingsOf rest
            { s with
              badges := s.badges ++
                [{ user_id := u, badge_type := bt, year_earned := py,
                   hours_completed := hoursOf u, trainings_completed := trainingsOf u }]
              notifications := s.notifications ++ [badge_notification u bt] }

/-- `calculate_yearly_badges` (src/core/scheduler.py lines 95-196): selects
last year's completions, groups them by user, and awards badges user by
user.  Any exception escapes to the job-level handler, which only logs it:
the session is then closed without the final commit, so the store is
returned unchanged. -/
def calculate_yearly_badges (now : Instant) (failNotify : List ℕ) (s : Store) : Store :=
  let py := now.year - 1
  let completions := rangeCompletions s py
  match processUsers py failNotify (runHours completions) (runTrainings completions)
      (runUsers completions) s with
  | some s2 => s2
  | none => s

/-- The notifications one tomorrow-session fans out
(src/core/scheduler.py lines 54-86): skipped entirely when the training row
is missing; otherwise one reminder per enrollment of the training, where a
user in `failNotify` raises inside the per-notification handler and is
skipped. -/
def remind_for_session (failNotify : List ℕ) (s : Store) (ts : TrainingSession) :
    List Notification :=
  match s.trainings.find? (fun t => decide (t.id = ts.training_id)) with
  | none => []
  | some training =>
    (s.enrollments.filter (fun e => decide (e.training_id = ts.training_id))).filterMap
      (fun e => if e.user_id ∈ failNotify then none
        else some (reminder_notification e.user_id training.title))

/-- `send_session_reminders` (src/core/scheduler.py lines 24-92): finds the
sessions dated tomorrow and appends the fanned-out reminders; `tomorrow`
stands for the date the job computes as current UTC date + 1 day. -/
def send_session_reminders (tomorrow : ℕ) (failNotify : List ℕ) (s : Store) : Store :=
  let upcoming := s.sessions.filter (fun ts => decide (ts.session_date = tomorrow))
  { s with notifications := s.notifications ++
      upcoming.flatMap (remind_for_session failNotify s) }

/-- Updating the row `find?` located keeps it the first match, as long as
the update preserves the predicate. -/
theorem find?_update_first {α : Type} (p : α → Bool) (f : α → α) (l : List α) (e : α)
    (hfind : l.find? p = some e) (hpf : p (f e) = true) :
    (update_first p f l).find? p = some (f e) := by
  induction l with
  | nil => simp at hfind
  | cons x xs ih =>
    cases hx : p x with
    | true =>
      simp only [List.find?, hx] at hfind
      cases hfind
      simp only [update_first, if_pos hx, List.find?, hpf]
    | false =>
      simp only [List.find?, hx] at hfind
      simp only [update_first, if_neg (by simp [hx] : ¬ p x = true), List.find?, hx]
      exact ih hfind

/-- C1: for every hours value h ≥ 0, the on-demand endpoint's
`determine_badge_type` and the yearly batch job's inline tier ladder return
the same tier, the tier is PLATINUM iff h ≥ 80, GOLD iff 60 ≤ h < 80,
SILVER iff 40 ≤ h < 60, BRONZE iff 20 ≤ h < 40 and none iff h < 20, and the
tier is non-decreasing in h. -/
theorem badge_tier_consistent_and_monotone :
    (∀ h : ℚ, determine_badge_type h = badge_tier_for_hours h) ∧
    (∀ h : ℚ, 0 ≤ h →
      ((determine_badge_type h = some BadgeType.PLATINUM ↔ 80 ≤ h) ∧
       (determine_badge_type h = some BadgeType.GOLD ↔ 60 ≤ h ∧ h < 80) ∧
       (determine_badge_type h = some BadgeType.SILVER ↔ 40 ≤ h ∧ h < 60) ∧
       (determine_badge_type h = some BadgeType.BRONZE ↔ 20 ≤ h ∧ h < 40) ∧
       (determine_badge_type h = none ↔ h < 20))) ∧
    (∀ h1 h2 : ℚ, h1 ≤ h2 →
      tier_rank (determine_badge_type h1) ≤ tier_rank (determine_badge_type h2)) := by
  refine ⟨fun h => rfl, fun h _ => ?_, fun h1 h2 hle => ?_⟩
  · unfold determine_badge_type
    split_ifs with h80 h60 h40 h20 <;>
      refine ⟨?_, ?_, ?_, ?_, ?_⟩ <;> simp <;>
      first
        | (exact ⟨by linarith, by linarith⟩)
        | (intro hx; linarith)
        | linarith
  · unfold determine_badge_type
    split_ifs <;> simp [tier_rank] <;> linarith

/-- Witness for C1 at concrete inputs: the boundary 20 is BRONZE and the
tier at 20 hours is no higher than the tier at 80 hours. -/
theorem badge_tier_witness :
    (determine_badge_type 20 = some BadgeType.BRONZE ↔ (20 : ℚ) ≤ 20 ∧ (20 : ℚ) < 40) ∧
    tier_rank (determine_badge_type 20) ≤ tier_rank (determine_badge_type 80) :=
  ⟨(badge_tier_consistent_and_monotone.2.1 20 (by norm_num)).2.2.2.1,
   badge_tier_consistent_and_monotone.2.2 20 80 (by norm_num)⟩

/-- C2: when the enrollment exists and a TrainingCompletion row for it
already exists, the completion calculator fails with the duplicate-completion
(Conflict) error; no state is returned, so no second row is created and the
enrollment is unchanged. -/
theorem completion_calculator_conflict (eid : ℕ) (ascore : Option ℚ) (p : Bool)
    (now : Instant) (s : Store) (e : Enrollment) (c : TrainingCompletion)
    (he : s.enrollments.find? (fun x => decide (x.id = eid)) = some e)
    (hc : s.completions.find? (fun x => decide (x.enrollment_id = eid)) = some c) :
    calculate_and_create_completion eid ascore p now s =
      Except.error
        (ApiError.badRequest "Completion record already exists for this enrollment") := by
  unfold calculate_and_create_completion
  simp only [he, hc]

/-- A store holding an enrollment that already has a completion row. -/
def storeAlreadyCompleted : Store :=
  { trainings := [⟨1, "T"⟩]
    sessions := [⟨10, 1, 100, "09:00"⟩]
    enrollments := [⟨5, 7, 1, EnrollmentStatus.COMPLETED, some ⟨2024, 2⟩, 100⟩]
    attendances := []
    completions := [⟨7, 1, 5, ⟨2024, 2⟩, 12, 100, none, true, false⟩]
    badges := [], modules := [], lessons := [], progressRows := [], notifications := [] }

/-- Witness for C2: on `storeAlreadyCompleted`, a second call for
enrollment 5 fails with the duplicate-completion error. -/
theorem completion_calculator_conflict_witness :
    calculate_and_create_completion 5 none true ⟨2024, 3⟩ storeAlreadyCompleted =
      Except.error
        (ApiError.badRequest "Completion record already exists for this enrollment") :=
  completion_calculator_conflict 5 none true ⟨2024, 3⟩ storeAlreadyCompleted
    ⟨5, 7, 1, EnrollmentStatus.COMPLETED, some ⟨2024, 2⟩, 100⟩
    ⟨7, 1, 5, ⟨2024, 2⟩, 12, 100, none, true, false⟩ (by decide) (by decide)

/-- C4: on the success path, the created TrainingCompletion carries
attendance percentage (PRESENT count / session count × 100) and learning
hours (sum of hours_attended over all attendance records), is appended to
the completions, and the enrollment is simultaneously set to COMPLETED with
completion percentage 100 and completed_at set. -/
theorem completion_calculator_success (eid : ℕ) (ascore : Option ℚ) (p : Bool)
    (now : Instant) (s : Store) (e : Enrollment)
    (he : s.enrollments.find? (fun x => decide (x.id = eid)) = some e)
    (hc : s.completions.find? (fun x => decide (x.enrollment_id = eid)) = none)
    (ht : (s.trainings.find? (fun t => decide (t.id = e.training_id))).isSome)
    (hs : training_sessions_of s e.training_id ≠ []) :
    calculate_and_create_completion eid ascore p now s =
      Except.ok
        ({ s with
            completions := s.completions ++ [computed_completion eid ascore p now s e]
            enrollments := update_first (fun x => decide (x.id = eid))
              (completed_enrollment now) s.enrollments },
         computed_completion eid ascore p now s e) ∧
    (computed_completion eid ascore p now s e).attendance_percentage =
      (presentCount s eid : ℚ) /
        ((training_sessions_of s e.training_id).length : ℚ) * 100 ∧
    (computed_completion eid ascore p now s e).learning_hours =
      enrollmentHours s eid ∧
    (computed_completion eid ascore p now s e).completed_at = now ∧
    (update_first (fun x => decide (x.id = eid))
        (completed_enrollment now) s.enrollments).find?
        (fun x => decide (x.id = eid)) =
      some { e with
        status := EnrollmentStatus.COMPLETED
        completed_at := some now
        completion_percentage := 100 } := by
  obtain ⟨t, htt⟩ := Option.isSome_iff_exists.mp ht
  have hlen : 0 < (training_sessions_of s e.training_id).length :=
    List.length_pos.mpr hs
  refine ⟨?_, ?_, rfl, rfl, ?_⟩
  · unfold calculate_and_create_completion
    simp only [he, hc, htt, if_neg hs]
  · simp only [computed_completion, if_pos hlen]
  · have heid : e.id = eid := by simpa using List.find?_some he
    exact find?_update_first _ _ _ e he (by simp [completed_enrollment, heid])

/-- The spec scenario store for C4: one training with 2 sessions, one
enrollment, PRESENT attendance of 8 and 7 hours. -/
def storeTwoSessions : Store :=
  { trainings := [⟨1, "T"⟩]
    sessions := [⟨10, 1, 100, "09:00"⟩, ⟨11, 1, 101, "09:00"⟩]
    enrollments := [⟨5, 7, 1, EnrollmentStatus.IN_PROGRESS, none, 50⟩]
    attendances := [⟨7, 10, 5, 100, AttendanceStatus.PRESENT, 8⟩,
                    ⟨7, 11, 5, 101, AttendanceStatus.PRESENT, 7⟩]
    completions := [], badges := [], modules := [], lessons := [],
    progressRows := [], notifications := [] }

/-- Witness for C4, the spec scenario: training with 2 sessions, PRESENT
attendance of 8 and 7 hours, yields attendance percentage 100 and learning
hours 15, and flips enrollment 5 to COMPLETED at 100 percent. -/
theorem completion_calculator_success_witness :
    (computed_completion 5 none true ⟨2024, 3⟩ storeTwoSessions
      ⟨5, 7, 1, EnrollmentStatus.IN_PROGRESS, none, 50⟩).attendance_percentage = 100 ∧
    (computed_completion 5 none true ⟨2024, 3⟩ storeTwoSessions
      ⟨5, 7, 1, EnrollmentStatus.IN_PROGRESS, none, 50⟩).learning_hours = 15 ∧
    (update_first (fun x => decide (x.id = 5))
        (completed_enrollment ⟨2024, 3⟩) storeTwoSessions.enrollments).find?
        (fun x => decide (x.id = 5)) =
      some ⟨5, 7, 1, EnrollmentStatus.COMPLETED, some ⟨2024, 3⟩, 100⟩ := by
  obtain ⟨_, h2, h3, _, h5⟩ :=
    completion_calculator_success 5 none true ⟨2024, 3⟩ storeTwoSessions
      ⟨5, 7, 1, EnrollmentStatus.IN_PROGRESS, none, 50⟩
      (by decide) (by decide) (by decide) (by decide)
  refine ⟨?_, ?_, h5⟩
  · rw [h2]
    norm_num [presentCount, training_sessions_of, enrollment_attendance, storeTwoSessions]
  · rw [h3]
    norm_num [enrollmentHours, enrollment_attendance, storeTwoSessions]

/-- A store with one training of a single session and one enrollment, and
no attendance yet. -/
def storeOneSession : Store :=
  { trainings := [⟨1, "T"⟩]
    sessions := [⟨10, 1, 100, "09:00"⟩]
    enrollments := [⟨5, 7, 1, EnrollmentStatus.ENROLLED, none, 0⟩]
    attendances := [], completions := [], badges := [], modules := [],
    lessons := [], progressRows := [], notifications := [] }

/-- `storeOneSession` after the single session was marked PRESENT on day
100. -/
def storeOneSessionA : Store :=
  { storeOneSession with
    attendances := [⟨7, 10, 5, 100, AttendanceStatus.PRESENT, 8⟩] }

/-- `storeOneSessionA` after the same session was marked PRESENT again on
day 101. -/
def storeOneSessionB : Store :=
  { storeOneSession with
    attendances := [⟨7, 10, 5, 100, AttendanceStatus.PRESENT, 8⟩,
                    ⟨7, 10, 5, 101, AttendanceStatus.PRESENT, 8⟩] }

/-- The completion row the calculator then produces: 2 PRESENT records over
1 session gives attendance_percentage 200. -/
def overfullCompletion : TrainingCompletion :=
  ⟨7, 1, 5, ⟨2024, 3⟩, 16, 200, none, true, false⟩

/-- C7 fails on the code: `mark_attendance` only rejects duplicates per
(session, enrollment, date), so marking the single session PRESENT on two
different dates is accepted, and the completion calculator then produces a
TrainingCompletion with attendance_percentage 200 — outside the [0, 100]
bound the TrainingCompletion model itself declares (Field ge=0, le=100). -/
theorem attendance_percentage_exceeds_bound :
    mark_attendance 7 10 5 100 AttendanceStatus.PRESENT 8 storeOneSession =
      Except.ok storeOneSessionA ∧
    mark_attendance 7 10 5 101 AttendanceStatus.PRESENT 8 storeOneSessionA =
      Except.ok storeOneSessionB ∧
    (calculate_and_create_completion 5 none true ⟨2024, 3⟩ storeOneSessionB).map
      (fun out => out.2) = Except.ok overfullCompletion ∧
    overfullCompletion.attendance_percentage = 200 ∧
    ¬ overfullCompletion.attendance_percentage ≤ 100 := by
  refine ⟨by decide, by decide, ?_, by norm_num [overfullCompletion], ?_⟩
  · norm_num [calculate_and_create_completion, storeOneSessionB, storeOneSession,
      computed_completion, training_sessions_of, presentCount, enrollment_attendance,
      enrollmentHours, update_first, completed_enrollment, overfullCompletion,
      List.find?, List.filter, Except.map]
  · norm_num [overfullCompletion]

/-- On every success path of `complete_lesson` the progress table is exactly
the upsert result: the roll-up touches only the enrollment. -/
theorem complete_lesson_progressRows (user lesson : ℕ) (q : ℚ) (now : Instant)
    (s s2 : Store) (hok : complete_lesson user lesson q now s = Except.ok s2) :
    s2.progressRows = (upsert_progress user lesson q now s).progressRows := by
  unfold complete_lesson at hok
  rcases hl : s.lessons.find? (fun l => decide (l.id = lesson)) with _ | l
  · rw [hl] at hok; cases hok
  · rw [hl] at hok; dsimp only at hok
    rcases hm : ((upsert_progress user lesson q now s).modules.find?
        (fun m => decide (m.id = l.module_id))).map Module.training_id with _ | tid
    · rw [hm] at hok; dsimp only at hok; cases hok; rfl
    · rw [hm] at hok; dsimp only at hok
      rcases he : (upsert_progress user lesson q now s).enrollments.find?
          (fun e => decide (e.user_id = user ∧ e.training_id = tid)) with _ | e
      · rw [he] at hok; dsimp only at hok; cases hok; rfl
      · rw [he] at hok; dsimp only at hok; cases hok; rfl

/-- C9: when a LessonProgress row for (user, lesson) already exists, a
successful `complete_lesson` call stores quiz_score = max(existing score,
submitted score) on that row, so the stored score is never lowered. -/
theorem quiz_score_monotone (user lesson : ℕ) (q : ℚ) (now : Instant)
    (s s2 : Store) (p0 : LessonProgress)
    (hfind : s.progressRows.find?
      (fun p => decide (p.user_id = user ∧ p.lesson_id = lesson)) = some p0)
    (hok : complete_lesson user lesson q now s = Except.ok s2) :
    s2.progressRows.find?
        (fun p => decide (p.user_id = user ∧ p.lesson_id = lesson)) =
      some { p0 with
        is_completed := true
        completed_at := some now
        quiz_score := max p0.quiz_score q } ∧
    p0.quiz_score ≤ max p0.quiz_score q := by
  have hrows := complete_lesson_progressRows user lesson q now s s2 hok
  have hp : p0.user_id = user ∧ p0.lesson_id = lesson := by
    simpa using List.find?_some hfind
  rw [hrows]
  unfold upsert_progress
  rw [hfind]
  exact ⟨find?_update_first _ _ _ p0 hfind (by simp [hp.1, hp.2]), le_max_left _ _⟩

/-- A store for the C9 witness: one lesson, one existing progress row with
quiz score 90. -/
def storeLessonDone : Store :=
  { trainings := [], sessions := [], enrollments := [], attendances := [],
    completions := [], badges := [], modules := []
    lessons := [⟨30, 20⟩]
    progressRows := [⟨7, 30, true, some ⟨2024, 1⟩, 90⟩]
    notifications := [] }

/-- Witness for C9: re-completing lesson 30 with a lower score 40 keeps the
stored score at max(90, 40) = 90. -/
theorem quiz_score_monotone_witness :
    ∃ s2, complete_lesson 7 30 40 ⟨2024, 2⟩ storeLessonDone = Except.ok s2 ∧
      s2.progressRows.find?
          (fun p => decide (p.user_id = 7 ∧ p.lesson_id = 30)) =
        some { user_id := 7, lesson_id := 30, is_completed := true,
               completed_at := some ⟨2024, 2⟩, quiz_score := max 90 40 } ∧
      (90 : ℚ) ≤ max 90 40 := by
  refine ⟨_, rfl, ?_⟩
  have h := quiz_score_monotone 7 30 40 ⟨2024, 2⟩ storeLessonDone _
    ⟨7, 30, true, some ⟨2024, 1⟩, 90⟩ (by decide) rfl
  exact h

/-- C3: on a successful roll-up with an existing enrollment and a training
with at least one lesson, the updated enrollment is the roll-up of the found
row: COMPLETED with completed_at set when the recomputed percentage is at
least 100, IN_PROGRESS when the percentage is strictly between 0 and 100 and
the previous status was ENROLLED, otherwise the status is unchanged — and a
COMPLETED enrollment never moves backward. -/
theorem lesson_rollup_status (user lesson : ℕ) (q : ℚ) (now : Instant)
    (s s1 s2 : Store) (l : Lesson) (m : Module) (e : Enrollment)
    (hs1 : s1 = upsert_progress user lesson q now s)
    (hl : s.lessons.find? (fun x => decide (x.id = lesson)) = some l)
    (hm : s1.modules.find? (fun x => decide (x.id = l.module_id)) = some m)
    (he : s1.enrollments.find?
      (fun x => decide (x.user_id = user ∧ x.training_id = m.training_id)) = some e)
    (htot : 0 < (training_lesson_ids s1 m.training_id).length)
    (hok : complete_lesson user lesson q now s = Except.ok s2) :
    s2.enrollments.find?
        (fun x => decide (x.user_id = user ∧ x.training_id = m.training_id)) =
      some (rollup_enrollment now s1 user m.training_id e) ∧
    (100 ≤ rollup_percentage s1 user m.training_id →
      (rollup_enrollment now s1 user m.training_id e).status =
        EnrollmentStatus.COMPLETED ∧
      (rollup_enrollment now s1 user m.training_id e).completed_at = some now) ∧
    (0 < rollup_percentage s1 user m.training_id →
      rollup_percentage s1 user m.training_id < 100 →
      e.status = EnrollmentStatus.ENROLLED →
      (rollup_enrollment now s1 user m.training_id e).status =
        EnrollmentStatus.IN_PROGRESS) ∧
    (rollup_percentage s1 user m.training_id < 100 →
      ¬ (0 < rollup_percentage s1 user m.training_id ∧
          e.status = EnrollmentStatus.ENROLLED) →
      (rollup_enrollment now s1 user m.training_id e).status = e.status) ∧
    (e.status = EnrollmentStatus.COMPLETED →
      (rollup_enrollment now s1 user m.training_id e).status =
        EnrollmentStatus.COMPLETED) := by
  subst hs1
  have hpred : e.user_id = user ∧ e.training_id = m.training_id := by
    simpa using List.find?_some he
  have henr : s2.enrollments = update_first
      (fun x => decide (x.user_id = user ∧ x.training_id = m.training_id))
      (rollup_enrollment now (upsert_progress user lesson q now s) user m.training_id)
      (upsert_progress user lesson q now s).enrollments := by
    unfold complete_lesson at hok
    rw [hl] at hok; dsimp only at hok
    rw [hm] at hok; simp only [Option.map] at hok
    rw [he] at hok; dsimp only at hok
    cases hok; rfl
  refine ⟨?_, ?_, ?_, ?_, ?_⟩
  · rw [henr]
    refine find?_update_first _ _ _ e he ?_
    simp only [rollup_enrollment]
    split_ifs <;> simp [hpred.1, hpred.2]
  · intro hge
    simp [rollup_enrollment, if_pos htot, if_pos (le_of_lt htot), hge]
  · intro h0 h100 hst
    have hnotge : ¬ rollup_percentage (upsert_progress user lesson q now s) user
        m.training_id ≥ 100 := by linarith
    simp [rollup_enrollment, if_pos htot, hnotge, h0, hst]
  · intro h100 hnot
    have hnotge : ¬ rollup_percentage (upsert_progress user lesson q now s) user
        m.training_id ≥ 100 := by linarith
    simp only [rollup_enrollment, if_pos htot, if_neg hnotge]
    rw [if_neg ?_]
    · intro hand
      exact hnot ⟨hand.1, hand.2⟩
  · intro hcomp
    simp only [rollup_enrollment, if_pos htot]
    split_ifs with h1 h2
    · rfl
    · rw [hcomp] at h2
      simp at h2
    · exact hcomp

/-- A store for the C3 witness: training 1 has module 20 with lessons 30
and 31; user 7 is enrolled with status ENROLLED and no progress yet. -/
def storeRollup : Store :=
  { trainings := [⟨1, "T"⟩], sessions := [], attendances := [],
    enrollments := [⟨5, 7, 1, EnrollmentStatus.ENROLLED, none, 0⟩],
    completions := [], badges := []
    modules := [⟨20, 1⟩]
    lessons := [⟨30, 20⟩, ⟨31, 20⟩]
    progressRows := [], notifications := [] }

/-- Witness for C3: completing lesson 30 (1 of 2 lessons, 50 percent) moves
the ENROLLED enrollment to IN_PROGRESS. -/
theorem lesson_rollup_status_witness :
    ∃ s2, complete_lesson 7 30 85 ⟨2024, 2⟩ storeRollup = Except.ok s2 ∧
      s2.enrollments.find? (fun x => decide (x.user_id = 7 ∧ x.training_id = 1)) =
        some (rollup_enrollment ⟨2024, 2⟩
          (upsert_progress 7 30 85 ⟨2024, 2⟩ storeRollup) 7 1
          ⟨5, 7, 1, EnrollmentStatus.ENROLLED, none, 0⟩) ∧
      (rollup_enrollment ⟨2024, 2⟩
        (upsert_progress 7 30 85 ⟨2024, 2⟩ storeRollup) 7 1
        ⟨5, 7, 1, EnrollmentStatus.ENROLLED, none, 0⟩).status =
        EnrollmentStatus.IN_PROGRESS := by
  have hpct : rollup_percentage (upsert_progress 7 30 85 ⟨2024, 2⟩ storeRollup) 7 1
      = 50 := by
    norm_num [rollup_percentage, completed_lesson_count, training_lesson_ids,
      upsert_progress, storeRollup, List.filter, List.find?]
  refine ⟨_, rfl, ?_⟩
  obtain ⟨hfind, _, hB, _, _⟩ := lesson_rollup_status 7 30 85 ⟨2024, 2⟩
    storeRollup _ _ ⟨30, 20⟩ ⟨20, 1⟩ ⟨5, 7, 1, EnrollmentStatus.ENROLLED, none, 0⟩
    rfl (by decide) (by decide) (by decide) (by decide) rfl
  exact ⟨hfind, hB (by rw [hpct]; norm_num) (by rw [hpct]; norm_num) rfl⟩

/-- The number of badges a list holds for a given (user, year). -/
def countBadges (u : ℕ) (y : ℤ) (l : List Badge) : ℕ :=
  (l.filter (fun b => decide (b.user_id = u ∧ b.year_earned = y))).length

/-- Membership in the fold underlying `dedupFirst`. -/
theorem mem_dedupFirst_fold (l : List ℕ) :
    ∀ acc u, (u ∈ l.foldl (fun acc u => if u ∈ acc then acc else acc ++ [u]) acc) ↔
      u ∈ acc ∨ u ∈ l := by
  induction l with
  | nil => simp
  | cons v rest ih =>
    intro acc u
    simp only [List.foldl_cons]
    by_cases hv : v ∈ acc
    · rw [if_pos hv, ih]
      simp only [List.mem_cons]
      constructor
      · rintro (h | h) <;> tauto
      · rintro (h | rfl | h)
        · left; exact h
        · left; exact hv
        · right; exact h
    · rw [if_neg hv, ih]
      simp only [List.mem_append, List.mem_cons, List.mem_singleton]
      tauto

/-- `dedupFirst` keeps exactly the members of the list. -/
theorem mem_dedupFirst (l : List ℕ) (u : ℕ) : u ∈ dedupFirst l ↔ u ∈ l := by
  unfold dedupFirst
  rw [mem_dedupFirst_fold]
  simp

/-- The fold underlying `dedupFirst` preserves freedom from duplicates. -/
theorem nodup_dedupFirst_fold (l : List ℕ) :
    ∀ acc, acc.Nodup → (l.foldl (fun acc u => if u ∈ acc then acc else acc ++ [u]) acc).Nodup := by
  induction l with
  | nil => intro acc h; simpa using h
  | cons v rest ih =>
    intro acc hacc
    simp only [List.foldl_cons]
    by_cases hv : v ∈ acc
    · rw [if_pos hv]; exact ih acc hacc
    · rw [if_neg hv]
      refine ih _ ?_
      simpa [List.nodup_append] using ⟨hacc, hv⟩

/-- `dedupFirst` has no duplicates. -/
theorem dedupFirst_nodup (l : List ℕ) : (dedupFirst l).Nodup :=
  nodup_dedupFirst_fold l [] List.nodup_nil

/-- With no notification failures the awarding loop always completes, never
touches completions, only adds badges, and ends with a badge for every
qualifying user it visited. -/
theorem processUsers_ok_spec (py : ℤ) (h : ℕ → ℚ) (t : ℕ → ℕ) :
    ∀ (users : List ℕ) (s : Store), ∃ s2,
      processUsers py [] h t users s = some s2 ∧
      s2.completions = s.completions ∧
      (∀ b ∈ s.badges, b ∈ s2.badges) ∧
      (∀ u ∈ users, badge_tier_for_hours (h u) ≠ none →
        ∃ b ∈ s2.badges, b.user_id = u ∧ b.year_earned = py) := by
  intro users
  induction users with
  | nil =>
    intro s
    exact ⟨s, rfl, rfl, fun b hb => hb, by simp⟩
  | cons v rest ih =>
    intro s
    unfold processUsers
    rcases hb : s.badges.find?
        (fun b => decide (b.user_id = v ∧ b.year_earned = py)) with _ | b0
    · rw [hb]
      rcases htier : badge_tier_for_hours (h v) with _ | bt
      · dsimp only
        obtain ⟨s2, hrun, hcomp, hmono, hqual⟩ := ih s
        refine ⟨s2, hrun, hcomp, hmono, ?_⟩
        intro u hu htu
        rcases List.mem_cons.mp hu with rfl | hu
        · exact absurd htier htu
        · exact hqual u hu htu
      · dsimp only
        rw [if_neg (List.not_mem_nil v)]
        obtain ⟨s2, hrun, hcomp, hmono, hqual⟩ := ih
          { s with
            badges := s.badges ++ [⟨v, bt, py, h v, t v⟩]
            notifications := s.notifications ++ [badge_notification v bt] }
        refine ⟨s2, hrun, hcomp, ?_, ?_⟩
        · intro b hbmem
          exact hmono b (List.mem_append_left _ hbmem)
        · intro u hu htu
          rcases List.mem_cons.mp hu with rfl | hu
          · exact ⟨⟨u, bt, py, h u, t u⟩,
              hmono _ (List.mem_append_right _ (List.mem_singleton.mpr rfl)), rfl, rfl⟩
          · exact hqual u hu htu
    · rw [hb]
      dsimp only
      obtain ⟨s2, hrun, hcomp, hmono, hqual⟩ := ih s
      refine ⟨s2, hrun, hcomp, hmono, ?_⟩
      intro u hu htu
      rcases List.mem_cons.mp hu with rfl | hu
      · have hb0 : b0 ∈ s.badges := List.mem_of_find?_eq_some hb
        have hp : b0.user_id = u ∧ b0.year_earned = py := by
          simpa using List.find?_some hb
        exact ⟨b0, hmono b0 hb0, hp⟩
      · exact hqual u hu htu

/-- When every qualifying user in the list already has a badge for the year,
the awarding loop is a no-op. -/
theorem processUsers_noop (py : ℤ) (h : ℕ → ℚ) (t : ℕ → ℕ) :
    ∀ (users : List ℕ) (s : Store),
      (∀ u ∈ users, badge_tier_for_hours (h u) ≠ none →
        ∃ b ∈ s.badges, b.user_id = u ∧ b.year_earned = py) →
      processUsers py [] h t users s = some s := by
  intro users
  induction users with
  | nil => intro s _; rfl
  | cons v rest ih =>
    intro s hall
    unfold processUsers
    rcases hb : s.badges.find?
        (fun b => decide (b.user_id = v ∧ b.year_earned = py)) with _ | b0
    · rw [hb]
      rcases htier : badge_tier_for_hours (h v) with _ | bt
      · dsimp only
        exact ih s (fun u hu => hall u (List.mem_cons_of_mem v hu))
      · exfalso
        obtain ⟨b, hbmem, hbu, hby⟩ := hall v (List.mem_cons_self v rest)
          (by rw [htier]; exact fun hx => Option.noConfusion hx)
        exact absurd (by simp [hbu, hby] : decide (b.user_id = v ∧ b.year_earned = py) = true)
          (by simpa using List.find?_eq_none.mp hb b hbmem)
    · rw [hb]
      dsimp only
      exact ih s (fun u hu => hall u (List.mem_cons_of_mem v hu))

/-- Badge counts add over list append. -/
theorem countBadges_append (u : ℕ) (py : ℤ) (l1 l2 : List Badge) :
    countBadges u py (l1 ++ l2) = countBadges u py l1 + countBadges u py l2 := by
  simp [countBadges, List.filter_append]

/-- Processing a user list that does not contain `u` leaves the badge count
of (u, py) unchanged. -/
theorem processUsers_count_notmem (py : ℤ) (fail : List ℕ) (h : ℕ → ℚ) (t : ℕ → ℕ)
    (u : ℕ) : ∀ (users : List ℕ) (s s2 : Store), u ∉ users →
      processUsers py fail h t users s = some s2 →
      countBadges u py s2.badges = countBadges u py s.badges := by
  intro users
  induction users with
  | nil =>
    intro s s2 _ hrun
    cases hrun; rfl
  | cons v rest ih =>
    intro s s2 hnot hrun
    have hvu : v ≠ u := fun hvu => hnot (hvu ▸ List.mem_cons_self v rest)
    have hrest : u ∉ rest := fun hm => hnot (List.mem_cons_of_mem v hm)
    unfold processUsers at hrun
    rcases hb : s.badges.find?
        (fun b => decide (b.user_id = v ∧ b.year_earned = py)) with _ | b0
    · rw [hb] at hrun
      rcases htier : badge_tier_for_hours (h v) with _ | bt
      · rw [htier] at hrun
        dsimp only at hrun
        exact ih s s2 hrest hrun
      · rw [htier] at hrun
        dsimp only at hrun
        by_cases hf : v ∈ fail
        · rw [if_pos hf] at hrun
          cases hrun
        · rw [if_neg hf] at hrun
          rw [ih _ s2 hrest hrun]
          simp [countBadges_append, countBadges, hvu]
    · rw [hb] at hrun
      dsimp only at hrun
      exact ih s s2 hrest hrun

/-- When (u, py) has no badge yet, one run of the awarding loop over a
duplicate-free user list leaves at most one badge for (u, py). -/
theorem processUsers_atmost_one (py : ℤ) (fail : List ℕ) (h : ℕ → ℚ) (t : ℕ → ℕ)
    (u : ℕ) : ∀ (users : List ℕ) (s s2 : Store), users.Nodup →
      countBadges u py s.badges = 0 →
      processUsers py fail h t users s = some s2 →
      countBadges u py s2.badges ≤ 1 := by
  intro users
  induction users with
  | nil =>
    intro s s2 _ hcount hrun
    cases hrun; simp [hcount]
  | cons v rest ih =>
    intro s s2 hnodup hcount hrun
    obtain ⟨hvrest, hrestnodup⟩ := List.nodup_cons.mp hnodup
    unfold processUsers at hrun
    rcases hb : s.badges.find?
        (fun b => decide (b.user_id = v ∧ b.year_earned = py)) with _ | b0
    · rw [hb] at hrun
      rcases htier : badge_tier_for_hours (h v) with _ | bt
      · rw [htier] at hrun
        dsimp only at hrun
        exact ih s s2 hrestnodup hcount hrun
      · rw [htier] at hrun
        dsimp only at hrun
        by_cases hf : v ∈ fail
        · rw [if_pos hf] at hrun
          cases hrun
        · rw [if_neg hf] at hrun
          by_cases hvu : v = u
          · have hurest : u ∉ rest := hvu ▸ hvrest
            have hone : countBadges u py (s.badges ++ [⟨v, bt, py, h v, t v⟩]) = 1 := by
              rw [countBadges_append, hcount]
              simp [countBadges, hvu]
            have hkeep := processUsers_count_notmem py fail h t u rest _ s2 hurest hrun
            rw [hkeep]
            simp only [Store.badges] at hone ⊢
            rw [hone]
          · refine ih _ s2 hrestnodup ?_ hrun
            rw [countBadges_append, hcount]
            simp [countBadges, hvu]
    · rw [hb] at hrun
      dsimp only at hrun
      exact ih s s2 hrestnodup hcount hrun

/-- When a qualifying, not-yet-awarded user in the list has a failing
notification, the whole awarding loop raises (returns none): there is no
per-user handler. -/
theorem processUsers_fails (py : ℤ) (fail : List ℕ) (h : ℕ → ℚ) (t : ℕ → ℕ)
    (u : ℕ) : ∀ (users : List ℕ) (s : Store), u ∈ users →
      badge_tier_for_hours (h u) ≠ none →
      s.badges.find? (fun b => decide (b.user_id = u ∧ b.year_earned = py)) = none →
      u ∈ fail →
      processUsers py fail h t users s = none := by
  intro users
  induction users with
  | nil =>
    intro s hmem
    exact absurd hmem (List.not_mem_nil u)
  | cons v rest ih =>
    intro s hmem htier hnob hfail
    unfold processUsers
    by_cases hvu : v = u
    · subst hvu
      rw [hnob]
      rcases htier0 : badge_tier_for_hours (h v) with _ | bt
      · exact absurd htier0 htier
      · dsimp only
        rw [if_pos hfail]
    · have hurest : u ∈ rest := by
        rcases List.mem_cons.mp hmem with rfl | hr
        · exact absurd rfl hvu
        · exact hr
      rcases hb : s.badges.find?
          (fun b => decide (b.user_id = v ∧ b.year_earned = py)) with _ | b0
      · try rw [hb]
        rcases htierv : badge_tier_for_hours (h v) with _ | bt
        · try rw [htierv]
          dsimp only
          exact ih s hurest htier hnob hfail
        · try rw [htierv]
          dsimp only
          by_cases hf : v ∈ fail
          · rw [if_pos hf]
          · rw [if_neg hf]
            refine ih _ hurest htier ?_ hfail
            rw [List.find?_eq_none]
            intro x hx
            rcases List.mem_append.mp hx with hx1 | hx2
            · simpa using List.find?_eq_none.mp hnob x hx1
            · have : x = (⟨v, bt, py, h v, t v⟩ : Badge) := List.mem_singleton.mp hx2
              subst this
              simp [hvu]
      · try rw [hb]
        dsimp only
        exact ih s hurest htier hnob hfail

/-- C5: with no failures, re-running the yearly badge awarder for the same
year is a no-op — every user already awarded is skipped, so the second run
returns the store of the first run unchanged — and a run never leaves more
than one badge per (user, year). -/
theorem yearly_badges_idempotent (now : Instant) (s : Store) :
    calculate_yearly_badges now [] (calculate_yearly_badges now [] s) =
      calculate_yearly_badges now [] s ∧
    (∀ u, countBadges u (now.year - 1) s.badges = 0 →
      countBadges u (now.year - 1) (calculate_yearly_badges now [] s).badges ≤ 1) := by
  obtain ⟨s1, hrun, hcomp, hmono, hqual⟩ :=
    processUsers_ok_spec (now.year - 1)
      (runHours (rangeCompletions s (now.year - 1)))
      (runTrainings (rangeCompletions s (now.year - 1)))
      (runUsers (rangeCompletions s (now.year - 1))) s
  have h1 : calculate_yearly_badges now [] s = s1 := by
    unfold calculate_yearly_badges
    dsimp only
    rw [hrun]
  have hrange : rangeCompletions s1 (now.year - 1) = rangeCompletions s (now.year - 1) := by
    unfold rangeCompletions
    rw [hcomp]
  have h2 : calculate_yearly_badges now [] s1 = s1 := by
    unfold calculate_yearly_badges
    dsimp only
    rw [hrange, processUsers_noop _ _ _ _ _ hqual]
  refine ⟨?_, ?_⟩
  · rw [h1, h2]
  · intro u hcount
    rw [h1]
    exact processUsers_atmost_one (now.year - 1) [] _ _ u _ s s1
      (dedupFirst_nodup _) hcount hrun

/-- A store for the C5 witness: user 1 completed one training with 25
learning hours in 2024 and holds no badge yet. -/
def storeYear2024 : Store :=
  { trainings := [], sessions := [], enrollments := [], attendances := [],
    completions := [⟨1, 1, 1, ⟨2024, 5⟩, 25, 100, none, true, false⟩],
    badges := [], modules := [], lessons := [], progressRows := [],
    notifications := [] }

/-- Witness for C5: on `storeYear2024` a second run of the 2025-01-01 job is
a no-op and user 1 ends with at most one 2024 badge. -/
theorem yearly_badges_idempotent_witness :
    calculate_yearly_badges ⟨2025, 0⟩ []
        (calculate_yearly_badges ⟨2025, 0⟩ [] storeYear2024) =
      calculate_yearly_badges ⟨2025, 0⟩ [] storeYear2024 ∧
    countBadges 1 ((2025 : ℤ) - 1)
        (calculate_yearly_badges ⟨2025, 0⟩ [] storeYear2024).badges ≤ 1 :=
  ⟨(yearly_badges_idempotent ⟨2025, 0⟩ storeYear2024).1,
   (yearly_badges_idempotent ⟨2025, 0⟩ storeYear2024).2 1 rfl⟩

/-- A store with two qualifying users for year 2024: user 1 (processed
first) and user 2, each with one 25-hour completion and no badge. -/
def storeTwoUsers : Store :=
  { trainings := [], sessions := [], enrollments := [], attendances := [],
    completions := [⟨1, 1, 1, ⟨2024, 5⟩, 25, 100, none, true, false⟩,
                    ⟨2, 2, 2, ⟨2024, 6⟩, 25, 100, none, true, false⟩],
    badges := [], modules := [], lessons := [], progressRows := [],
    notifications := [] }

/-- The 2024 hours of user 1 in `storeTwoUsers` qualify for a badge. -/
theorem storeTwoUsers_user1_qualifies :
    badge_tier_for_hours
      (runHours (rangeCompletions storeTwoUsers ((⟨2025, 0⟩ : Instant).year - 1)) 1)
      ≠ none := by
  have hh : runHours (rangeCompletions storeTwoUsers ((⟨2025, 0⟩ : Instant).year - 1)) 1
      = 25 := by
    norm_num [runHours, rangeCompletions, storeTwoUsers, Instant.le, Instant.lt, jan1,
      List.filter]
  rw [hh]
  norm_num [badge_tier_for_hours]
  decide

/-- The 2024 hours of user 2 in `storeTwoUsers` qualify for a badge. -/
theorem storeTwoUsers_user2_qualifies :
    badge_tier_for_hours
      (runHours (rangeCompletions storeTwoUsers ((⟨2025, 0⟩ : Instant).year - 1)) 2)
      ≠ none := by
  have hh : runHours (rangeCompletions storeTwoUsers ((⟨2025, 0⟩ : Instant).year - 1)) 2
      = 25 := by
    norm_num [runHours, rangeCompletions, storeTwoUsers, Instant.le, Instant.lt, jan1,
      List.filter]
  rw [hh]
  norm_num [badge_tier_for_hours]
  decide

/-- C6 fails on the code: in `storeTwoUsers`, when user 1's badge
notification raises, the job-level handler swallows the exception without a
commit, so the whole run is rolled back and user 2 — although qualifying, as
the failure-free run shows — receives no badge. -/
theorem yearly_badges_failure_counterexample :
    calculate_yearly_badges ⟨2025, 0⟩ [1] storeTwoUsers = storeTwoUsers ∧
    countBadges 2 2024 (calculate_yearly_badges ⟨2025, 0⟩ [1] storeTwoUsers).badges = 0 ∧
    countBadges 2 2024 (calculate_yearly_badges ⟨2025, 0⟩ [] storeTwoUsers).badges = 1 := by
  have habort : calculate_yearly_badges ⟨2025, 0⟩ [1] storeTwoUsers = storeTwoUsers := by
    unfold calculate_yearly_badges
    dsimp only
    rw [processUsers_fails ((⟨2025, 0⟩ : Instant).year - 1) [1] _ _ 1 _ storeTwoUsers
      (by decide) storeTwoUsers_user1_qualifies rfl (by decide)]
  have hy : ((⟨2025, 0⟩ : Instant).year - 1) = (2024 : ℤ) := by norm_num
  obtain ⟨s1, hrun, _, _, hqual⟩ :=
    processUsers_ok_spec ((⟨2025, 0⟩ : Instant).year - 1)
      (runHours (rangeCompletions storeTwoUsers ((⟨2025, 0⟩ : Instant).year - 1)))
      (runTrainings (rangeCompletions storeTwoUsers ((⟨2025, 0⟩ : Instant).year - 1)))
      (runUsers (rangeCompletions storeTwoUsers ((⟨2025, 0⟩ : Instant).year - 1)))
      storeTwoUsers
  have h1 : calculate_yearly_badges ⟨2025, 0⟩ [] storeTwoUsers = s1 := by
    unfold calculate_yearly_badges
    dsimp only
    rw [hrun]
  have hge : 1 ≤ countBadges 2 2024 s1.badges := by
    obtain ⟨b, hbmem, hbu, hby⟩ := hqual 2 (by decide) storeTwoUsers_user2_qualifies
    have hby24 : b.year_earned = (2024 : ℤ) := by rw [hby, hy]
    have hbin : b ∈ s1.badges.filter
        (fun b => decide (b.user_id = 2 ∧ b.year_earned = 2024)) :=
      List.mem_filter.mpr ⟨hbmem, by simp [hbu, hby24]⟩
    exact List.length_pos.mpr (List.ne_nil_of_mem hbin)
  have hle : countBadges 2 2024 s1.badges ≤ 1 := by
    have := processUsers_atmost_one ((⟨2025, 0⟩ : Instant).year - 1) [] _ _ 2 _
      storeTwoUsers s1 (dedupFirst_nodup _) (by rw [hy]; rfl) hrun
    rwa [hy] at this
  exact ⟨habort, by rw [habort]; rfl, by rw [h1]; exact le_antisymm hle hge⟩

/-- C6 amended: an error raised while processing one user of the yearly
badge awarder is caught only by the job-level handler; the run aborts with
no commit, so the store is returned unchanged and the remaining users are
not awarded in that run. -/
theorem yearly_badges_failure_aborts (now : Instant) (fail : List ℕ) (s : Store)
    (u : ℕ)
    (hu : u ∈ runUsers (rangeCompletions s (now.year - 1)))
    (htier : badge_tier_for_hours
      (runHours (rangeCompletions s (now.year - 1)) u) ≠ none)
    (hnob : s.badges.find?
      (fun b => decide (b.user_id = u ∧ b.year_earned = now.year - 1)) = none)
    (hfail : u ∈ fail) :
    calculate_yearly_badges now fail s = s := by
  unfold calculate_yearly_badges
  dsimp only
  rw [processUsers_fails (now.year - 1) fail _ _ u _ s hu htier hnob hfail]

/-- Witness for the amended C6: user 1 of `storeTwoUsers` fails, the run
returns the store unchanged. -/
theorem yearly_badges_failure_aborts_witness :
    calculate_yearly_badges ⟨2025, 0⟩ [1] storeTwoUsers = storeTwoUsers :=
  yearly_badges_failure_aborts ⟨2025, 0⟩ [1] storeTwoUsers 1
    (by decide) storeTwoUsers_user1_qualifies rfl (by decide)

/-- A `filterMap` that never drops is a `map`. -/
theorem filterMap_some_eq_map {α β : Type} (f : α → β) (l : List α) :
    l.filterMap (fun a => some (f a)) = l.map f := by
  induction l with
  | nil => rfl
  | cons a l ih => simp [List.filterMap_cons, ih]

/-- C8: for a session dated tomorrow whose training exists, the reminder job
emits exactly one SESSION_REMINDER notification per enrollment of that
training (every enrollment in the training, not only those bound to the
session), and appends the fan-out of every tomorrow-session to the
notification table. -/
theorem session_reminder_fanout (tomorrow : ℕ) (s : Store) (ts : TrainingSession)
    (tr : Training) (hmem : ts ∈ s.sessions) (hdate : ts.session_date = tomorrow)
    (htr : s.trainings.find? (fun t => decide (t.id = ts.training_id)) = some tr) :
    remind_for_session [] s ts =
      (s.enrollments.filter (fun e => decide (e.training_id = ts.training_id))).map
        (fun e => reminder_notification e.user_id tr.title) ∧
    (remind_for_session [] s ts).length =
      (s.enrollments.filter (fun e => decide (e.training_id = ts.training_id))).length ∧
    (∀ n ∈ remind_for_session [] s ts,
      n.notification_type = NotificationType.SESSION_REMINDER) ∧
    ts ∈ s.sessions.filter (fun x => decide (x.session_date = tomorrow)) ∧
    (send_session_reminders tomorrow [] s).notifications =
      s.notifications ++
        (s.sessions.filter (fun x => decide (x.session_date = tomorrow))).flatMap
          (remind_for_session [] s) := by
  have hmap : remind_for_session [] s ts =
      (s.enrollments.filter (fun e => decide (e.training_id = ts.training_id))).map
        (fun e => reminder_notification e.user_id tr.title) := by
    unfold remind_for_session
    rw [htr]
    simp [filterMap_some_eq_map]
  refine ⟨hmap, by rw [hmap, List.length_map], ?_, ?_, rfl⟩
  · intro n hn
    rw [hmap] at hn
    obtain ⟨e, _, rfl⟩ := List.mem_map.mp hn
    rfl
  · exact List.mem_filter.mpr ⟨hmem, by simp [hdate]⟩

/-- A store for the C8 witness: one training, one session on day 100, three
enrollments for the training. -/
def storeThreeEnrolled : Store :=
  { trainings := [⟨1, "T"⟩]
    sessions := [⟨10, 1, 100, "09:00"⟩]
    enrollments := [⟨5, 7, 1, EnrollmentStatus.ENROLLED, none, 0⟩,
                    ⟨6, 8, 1, EnrollmentStatus.ENROLLED, none, 0⟩,
                    ⟨7, 9, 1, EnrollmentStatus.IN_PROGRESS, none, 50⟩]
    attendances := [], completions := [], badges := [], modules := [],
    lessons := [], progressRows := [], notifications := [] }

/-- Witness for C8: the session scheduled for tomorrow (day 100) in a
training with 3 enrolled users yields exactly 3 reminder notifications. -/
theorem session_reminder_fanout_witness :
    (remind_for_session [] storeThreeEnrolled ⟨10, 1, 100, "09:00"⟩).length =
      (storeThreeEnrolled.enrollments.filter
        (fun e => decide (e.training_id = 1))).length ∧
    (storeThreeEnrolled.enrollments.filter
      (fun e => decide (e.training_id = 1))).length = 3 ∧
    (send_session_reminders 100 [] storeThreeEnrolled).notifications.length = 3 := by
  obtain ⟨hmap, hlen, _, _, hnot⟩ := session_reminder_fanout 100 storeThreeEnrolled
    ⟨10, 1, 100, "09:00"⟩ ⟨1, "T"⟩ (by decide) rfl (by decide)
  refine ⟨hlen, rfl, ?_⟩
  rw [hnot]
  rfl

/-- A datetime lies in [Jan 1 of py, Jan 1 of py + 1) exactly when its year
is py. -/
theorem instant_range_iff (py : ℤ) (c : Instant) :
    (Instant.le (jan1 py) c && Instant.lt c (jan1 (py + 1))) = true ↔ c.year = py := by
  unfold Instant.le Instant.lt jan1
  simp only [Bool.and_eq_true, Bool.or_eq_true, decide_eq_true_eq]
  constructor
  · rintro ⟨h1, h2⟩
    rcases h2 with h2 | ⟨_, h3⟩
    · rcases h1 with h1 | ⟨h1, _⟩ <;> omega
    · exact absurd h3 (Nat.not_lt_zero _)
  · intro hy
    exact ⟨Or.inr ⟨hy.symm, Nat.zero_le _⟩, Or.inl (by omega)⟩

/-- The yearly job's range filter selects exactly the completions whose year
is py — the same rows the on-demand endpoint's extract-year filter selects. -/
theorem rangeCompletions_eq_year (s : Store) (py : ℤ) :
    rangeCompletions s py =
      s.completions.filter (fun c => decide (c.completed_at.year = py)) := by
  unfold rangeCompletions
  apply List.filter_congr
  intro c _
  rcases hb : decide (c.completed_at.year = py) with _ | _
  · have : ¬ c.completed_at.year = py := of_decide_eq_false hb
    rcases hr : (Instant.le (jan1 py) c.completed_at &&
        Instant.lt c.completed_at (jan1 (py + 1))) with _ | _
    · rfl
    · exact absurd ((instant_range_iff py c.completed_at).mp hr) this
  · exact (instant_range_iff py c.completed_at).mpr (of_decide_eq_true hb)

/-- A user with no completion in year py is not among the users the yearly
job groups. -/
theorem not_mem_runUsers (s : Store) (py : ℤ) (u : ℕ)
    (hnone : s.completions.filter
      (fun c => decide (c.user_id = u ∧ c.completed_at.year = py)) = []) :
    u ∉ runUsers (rangeCompletions s py) := by
  intro hmem
  rw [runUsers, mem_dedupFirst] at hmem
  obtain ⟨c, hc, hcu⟩ := List.mem_map.mp hmem
  rw [rangeCompletions_eq_year] at hc
  obtain ⟨hcs, hcy⟩ := List.mem_filter.mp hc
  have hcmem : c ∈ s.completions.filter
      (fun c => decide (c.user_id = u ∧ c.completed_at.year = py)) :=
    List.mem_filter.mpr ⟨hcs, by simp [hcu, of_decide_eq_true hcy]⟩
  rw [hnone] at hcmem
  exact absurd hcmem (List.not_mem_nil c)

/-- C10: the on-demand badge award fails — creating neither a badge nor a
notification — when a badge for (user, year) exists, when the user has no
completion in the year, or when the year's hours are below 20; in every
other case it creates exactly the badge and its notification.  A user with
zero completions is an error here, while the yearly batch job silently
skips such a user (their badge count is unchanged by the job). -/
theorem award_badge_endpoint_cases (user_id : ℕ) (year : ℤ) (s : Store) :
    (∀ b0, s.badges.find?
        (fun b => decide (b.user_id = user_id ∧ b.year_earned = year)) = some b0 →
      calculate_and_award_badge user_id year s =
        Except.error (ApiError.badRequest "Badge already awarded for year")) ∧
    (s.badges.find?
        (fun b => decide (b.user_id = user_id ∧ b.year_earned = year)) = none →
      yearCompletions s user_id year = [] →
      calculate_and_award_badge user_id year s =
        Except.error (ApiError.badRequest "No completed trainings found for year")) ∧
    (s.badges.find?
        (fun b => decide (b.user_id = user_id ∧ b.year_earned = year)) = none →
      yearCompletions s user_id year ≠ [] →
      ((yearCompletions s user_id year).map (fun c => c.learning_hours)).sum < 20 →
      calculate_and_award_badge user_id year s =
        Except.error (ApiError.badRequest
          "Insufficient learning hours. Minimum 20 hours required for BRONZE badge.")) ∧
    (s.badges.find?
        (fun b => decide (b.user_id = user_id ∧ b.year_earned = year)) = none →
      yearCompletions s user_id year ≠ [] →
      20 ≤ ((yearCompletions s user_id year).map (fun c => c.learning_hours)).sum →
      ∃ bt, determine_badge_type
          (((yearCompletions s user_id year).map (fun c => c.learning_hours)).sum) =
          some bt ∧
        calculate_and_award_badge user_id year s = Except.ok
          ({ s with
              badges := s.badges ++ [⟨user_id, bt, year,
                ((yearCompletions s user_id year).map (fun c => c.learning_hours)).sum,
                (yearCompletions s user_id year).length⟩]
              notifications := s.notifications ++
                [badge_notification user_id bt] },
           ⟨user_id, bt, year,
            ((yearCompletions s user_id year).map (fun c => c.learning_hours)).sum,
            (yearCompletions s user_id year).length⟩)) ∧
    (∀ nowB : Instant, nowB.year = year + 1 →
      yearCompletions s user_id year = [] →
      countBadges user_id year (calculate_yearly_badges nowB [] s).badges =
        countBadges user_id year s.badges) := by
  refine ⟨?_, ?_, ?_, ?_, ?_⟩
  · intro b0 hb
    unfold calculate_and_award_badge
    rw [hb]
  · intro hb hempty
    unfold calculate_and_award_badge
    rw [hb]
    dsimp only
    rw [if_pos hempty]
  · intro hb hne hlt
    unfold calculate_and_award_badge
    rw [hb]
    dsimp only
    rw [if_neg hne]
    have hnone : determine_badge_type
        (((yearCompletions s user_id year).map (fun c => c.learning_hours)).sum) =
        none := by
      unfold determine_badge_type
      split_ifs <;> first | rfl | linarith
    rw [hnone]
  · intro hb hne h20
    have hsome : ∃ bt, determine_badge_type
        (((yearCompletions s user_id year).map (fun c => c.learning_hours)).sum) =
        some bt := by
      unfold determine_badge_type
      split_ifs <;> exact ⟨_, rfl⟩
    obtain ⟨bt, hbt⟩ := hsome
    refine ⟨bt, hbt, ?_⟩
    unfold calculate_and_award_badge
    rw [hb]
    dsimp only
    rw [if_neg hne, hbt]
  · intro nowB hny hempty
    have hpy : nowB.year - 1 = year := by omega
    obtain ⟨s1, hrun, _, _, _⟩ :=
      processUsers_ok_spec (nowB.year - 1)
        (runHours (rangeCompletions s (nowB.year - 1)))
        (runTrainings (rangeCompletions s (nowB.year - 1)))
        (runUsers (rangeCompletions s (nowB.year - 1))) s
    have h1 : calculate_yearly_badges nowB [] s = s1 := by
      unfold calculate_yearly_badges
      dsimp only
      rw [hrun]
    have hnotmem : user_id ∉ runUsers (rangeCompletions s (nowB.year - 1)) := by
      apply not_mem_runUsers
      rw [hpy]
      exact hempty
    rw [h1, ← hpy]
    exact processUsers_count_notmem (nowB.year - 1) [] _ _ user_id _ s s1 hnotmem hrun

/-- Witness for C10 on `storeYear2024`: user 1 (25 hours in 2024, no badge)
is awarded; user 2 (no completions) gets the no-completions error at the
endpoint while the yearly batch job leaves their badge count unchanged. -/
theorem award_badge_endpoint_cases_witness :
    (∃ bt, determine_badge_type
        (((yearCompletions storeYear2024 1 2024).map (fun c => c.learning_hours)).sum) =
        some bt ∧
      calculate_and_award_badge 1 2024 storeYear2024 = Except.ok
        ({ storeYear2024 with
            badges := storeYear2024.badges ++ [⟨1, bt, 2024,
              ((yearCompletions storeYear2024 1 2024).map
                (fun c => c.learning_hours)).sum,
              (yearCompletions storeYear2024 1 2024).length⟩]
            notifications := storeYear2024.notifications ++
              [badge_notification 1 bt] },
         ⟨1, bt, 2024,
          ((yearCompletions storeYear2024 1 2024).map
            (fun c => c.learning_hours)).sum,
          (yearCompletions storeYear2024 1 2024).length⟩)) ∧
    calculate_and_award_badge 2 2024 storeYear2024 =
      Except.error (ApiError.badRequest "No completed trainings found for year") ∧
    countBadges 2 2024 (calculate_yearly_badges ⟨2025, 0⟩ [] storeYear2024).badges =
      countBadges 2 2024 storeYear2024.badges := by
  obtain ⟨_, _, _, h4, _⟩ := award_badge_endpoint_cases 1 2024 storeYear2024
  obtain ⟨_, h2c, _, _, h5⟩ := award_badge_endpoint_cases 2 2024 storeYear2024
  refine ⟨h4 rfl (by decide) ?_, h2c rfl (by decide), h5 ⟨2025, 0⟩ (by norm_num) (by decide)⟩
  norm_num [yearCompletions, storeYear2024, List.filter]

end LMS
